import Mathlib

/-!
Shallow embedding of the meander-migration script
(src/scripts/Meander Migration.js): JavaScript numeric semantics, the
coordinate-flattening helper, the migration-rate estimator
calculateMigrationRate, the raster centerline extraction
extractCenterline, and the pairing loop of main().
-/

/-- A JavaScript number: NaN, the two infinities, or a finite value
(modelled as an exact rational; IEEE-754 rounding is not modelled). -/
inductive JSNum where
  | nan
  | inf
  | ninf
  | fin (q : ℚ)
deriving DecidableEq

/-- A JavaScript value as it occurs in the coordinate data the script
manipulates: undefined, a number, or an array. -/
inductive JSVal where
  | undef
  | num (x : JSNum)
  | arr (l : List JSVal)

/-- ECMAScript ToNumber on the values that occur in this script:
undefined converts to NaN; an array converts through its joined string
form, so an empty array converts to 0, a one-element array to the
conversion of its element, and a longer array to NaN (the joined string
contains a comma). -/
def toNum : JSVal → JSNum
  | .undef => .nan
  | .num x => x
  | .arr [] => .fin 0
  | .arr [v] => toNum v
  | .arr (_ :: _ :: _) => .nan

/-- JavaScript subtraction on numbers. -/
def numSub : JSNum → JSNum → JSNum
  | .nan, _ => .nan
  | _, .nan => .nan
  | .inf, .inf => .nan
  | .inf, _ => .inf
  | .ninf, .ninf => .nan
  | .ninf, _ => .ninf
  | .fin _, .inf => .ninf
  | .fin _, .ninf => .inf
  | .fin a, .fin b => .fin (a - b)

/-- JavaScript addition on numbers. -/
def numAdd : JSNum → JSNum → JSNum
  | .nan, _ => .nan
  | _, .nan => .nan
  | .inf, .ninf => .nan
  | .inf, _ => .inf
  | .ninf, .inf => .nan
  | .ninf, _ => .ninf
  | .fin _, .inf => .inf
  | .fin _, .ninf => .ninf
  | .fin a, .fin b => .fin (a + b)

/-- Math.min on two numbers: NaN-propagating, Infinity is the identity. -/
def numMin : JSNum → JSNum → JSNum
  | .nan, _ => .nan
  | _, .nan => .nan
  | .ninf, _ => .ninf
  | _, .ninf => .ninf
  | .inf, b => b
  | a, .inf => a
  | .fin a, .fin b => .fin (min a b)

/-- Math.pow with exponent 2. -/
def numPow2 : JSNum → JSNum
  | .nan => .nan
  | .inf => .inf
  | .ninf => .inf
  | .fin a => .fin (a ^ 2)

/-- Math.sqrt: NaN on NaN, +Infinity on +Infinity, NaN on -Infinity and
on negative finite arguments. On a non-negative finite argument the true
square root is irrational in general and has no exact rational
representation, so the embedding is parametric in that case (argument
sq); every theorem below holds for every choice of sq, and in the
executions the theorems evaluate, sq is never reached. -/
def mathSqrt (sq : ℚ → JSNum) : JSNum → JSNum
  | .nan => .nan
  | .inf => .inf
  | .ninf => .nan
  | .fin a => if a < 0 then .nan else sq a

/-- JavaScript division on numbers (signed zero is collapsed to 0). -/
def numDiv : JSNum → JSNum → JSNum
  | .nan, _ => .nan
  | _, .nan => .nan
  | .inf, .inf => .nan
  | .inf, .ninf => .nan
  | .inf, .fin b => if b < 0 then .ninf else .inf
  | .ninf, .inf => .nan
  | .ninf, .ninf => .nan
  | .ninf, .fin b => if b < 0 then .inf else .ninf
  | .fin _, .inf => .fin 0
  | .fin _, .ninf => .fin 0
  | .fin a, .fin b =>
      if b = 0 then (if a = 0 then .nan else if a < 0 then .ninf else .inf)
      else .fin (a / b)

/-- JavaScript property access v[i]: an out-of-range index or a
non-array receiver yields undefined. -/
def jsIndex : JSVal → ℕ → JSVal
  | .undef, _ => .undef
  | .num _, _ => .undef
  | .arr l, i => l.getD i (JSVal.undef)

/-- JavaScript binary subtraction on arbitrary values: ToNumber on both
operands, then numeric subtraction. -/
def jsSub (a b : JSVal) : JSNum := numSub (toNum a) (toNum b)

/-- The body of flattenCoords's inner flatten(arr) loop (lines 84-93):
array elements are recursed into, every other element is pushed onto
the flat list in order. -/
def flattenList : List JSVal → List JSVal
  | [] => []
  | .arr l :: rest => flattenList l ++ flattenList rest
  | v :: rest => v :: flattenList rest

/-- flattenCoords from the script (lines 83-96): run flatten on the top
value; a non-array top value leaves the flat list empty, since the loop
over its length never executes. -/
def flattenCoords : JSVal → List JSVal
  | .arr l => flattenList l
  | .undef => []
  | .num _ => []

def multiLineStringT : String := "MultiLineString"

def lineStringT : String := "LineString"

def pointT : String := "Point"

/-- A GeoJSON-style geometry as the script consumes it: a type tag and
a nested coordinate value. -/
structure Geometry where
  type : String
  coordinates : JSVal

/-- A feature wrapping one geometry (centerline.geometry()). -/
structure Feature where
  geometry : Geometry

/-- The guard of line 72: membership of the geometry type tag in the
list of MultiLineString and LineString. -/
def isLineLike (t : String) : Bool :=
  [multiLineStringT, lineStringT].contains t

/-- calculateMigrationRate from the script (lines 66-119), translated
clause by clause: the geometry-kind guard that returns 0, flattenCoords
applied to both coordinate lists (producing scalar leaves), the nested
nearest-point loops (Math.min folded from Infinity over the
Math.sqrt/Math.pow distance expression), the averaging by
reduce-and-divide over the collected minima, and the final division by
the time interval. Parametric in the finite-argument behaviour sq of
Math.sqrt. -/
def calculateMigrationRate (sq : ℚ → JSNum) (centerline1 centerline2 : Feature)
    (timeInterval : ℚ) : JSNum :=
  let geom1 := centerline1.geometry
  let geom2 := centerline2.geometry
  if !isLineLike geom1.type || !isLineLike geom2.type then .fin 0
  else
    let coords1 := flattenCoords geom1.coordinates
    let coords2 := flattenCoords geom2.coordinates
    let distances := coords1.map (fun point1 =>
      coords2.foldl (fun minDistance point2 =>
        numMin minDistance
          (mathSqrt sq
            (numAdd (numPow2 (jsSub (jsIndex point2 0) (jsIndex point1 0)))
                    (numPow2 (jsSub (jsIndex point2 1) (jsIndex point1 1))))))
        JSNum.inf)
    let averageDistance :=
      numDiv (distances.foldl numAdd (JSNum.fin 0))
        (JSNum.fin (distances.length : ℚ))
    numDiv averageDistance (JSNum.fin timeInterval)

/-- A coordinate pair as a JavaScript two-element array. -/
def pairArr (p : ℚ × ℚ) : JSVal := .arr [.num (.fin p.1), .num (.fin p.2)]

/-- A LineString coordinate list as a JavaScript nested array. -/
def lineCoords (pts : List (ℚ × ℚ)) : JSVal := .arr (pts.map pairArr)

/-- A MultiLineString coordinate list as a JavaScript nested array. -/
def multiLineCoords (lss : List (List (ℚ × ℚ))) : JSVal :=
  .arr (lss.map lineCoords)

/-- A feature holding a LineString through the given points. -/
def lineFeature (pts : List (ℚ × ℚ)) : Feature := ⟨⟨lineStringT, lineCoords pts⟩⟩

/-- The earlier polyline of the spec scenario: (0,0), (10,0). -/
def earlierLine : Feature := lineFeature [(0, 0), (10, 0)]

/-- The later polyline of the spec scenario: (0,5), (10,5). -/
def laterLine : Feature := lineFeature [(0, 5), (10, 5)]

/-- A LineString feature with an empty coordinate list. -/
def emptyLine : Feature := lineFeature []

/-- A feature whose geometry is a Point, hence not line-like. -/
def pointFeature : Feature := ⟨⟨pointT, pairArr (0, 0)⟩⟩

/-- A concrete instantiation of the Math.sqrt parameter for witnesses. -/
def sqNaN : ℚ → JSNum := fun _ => JSNum.nan

/-- One row of the migration-rate table of main() (section 3.5). -/
structure MigrationRecord where
  year1 : ℤ
  year2 : ℤ
  migrationRate : JSNum
deriving DecidableEq

def defaultFeature : Feature := ⟨⟨lineStringT, JSVal.arr []⟩⟩

def defaultEpoch : ℤ × Feature := (0, defaultFeature)

/-- The migration-rate loop of main() (section 3.4): one
calculateMigrationRate call per consecutive pair of centerlines, in
order. -/
def migrationRatesOf (sq : ℚ → JSNum) (centerlines : List Feature) (t : ℚ) :
    List JSNum :=
  (List.range (centerlines.length - 1)).map (fun i =>
    calculateMigrationRate sq (centerlines.getD i defaultFeature)
      (centerlines.getD (i + 1) defaultFeature) t)

/-- The CSV-row construction of main() (section 3.5):
years.slice(0,-1).map over (year, index), pairing years[index] with
years[index+1] and migrationRates[index]. -/
def migrationRateData (years : List ℤ) (rates : List JSNum) :
    List MigrationRecord :=
  years.dropLast.mapIdx (fun index year =>
    ⟨year, years.getD (index + 1) 0, rates.getD index JSNum.nan⟩)

/-- The pairing portion of main(): given the epoch labels with their
centerline features (imagery acquisition and water classification,
which produce each epoch's centerline, are the external collaborators),
compute the ordered migration-rate table. -/
def mainMigrationTable (sq : ℚ → JSNum) (epochs : List (ℤ × Feature)) (t : ℚ) :
    List MigrationRecord :=
  migrationRateData (epochs.map Prod.fst)
    (migrationRatesOf sq (epochs.map Prod.snd) t)

/-- A pixel of the raster grid. -/
abbrev Pix := ℤ × ℤ

/-- The square window of half-width r centred on p. -/
def pixBox (p : Pix) (r : ℕ) : Finset Pix :=
  Finset.Icc (p.1 - (r : ℤ), p.2 - (r : ℤ)) (p.1 + (r : ℤ), p.2 + (r : ℤ))

/-- Squared Euclidean distance between pixels. -/
def sqDistPix (p q : Pix) : ℤ := (p.1 - q.1) ^ 2 + (p.2 - q.2) ^ 2

/-- The Euclidean disc of radius r around p, the kernel of the
morphological operations. -/
def pixDisc (p : Pix) (r : ℕ) : Finset Pix :=
  (pixBox p r).filter (fun q => sqDistPix p q ≤ (r : ℤ) ^ 2)

/-- Modelled from the spec: morphological erosion (the script delegates
to the platform's image.morphology, whose implementation is not in the
repository) — a pixel survives iff its whole disc is foreground. -/
def erode (m : Finset Pix) (r : ℕ) : Finset Pix :=
  m.filter (fun p => ∀ q ∈ pixDisc p r, q ∈ m)

/-- Modelled from the spec: morphological dilation — the union of the
discs of the foreground pixels. -/
def dilate (m : Finset Pix) (r : ℕ) : Finset Pix :=
  m.biUnion (fun p => pixDisc p r)

/-- Largest absolute coordinate occurring in a mask; every pixel with a
coordinate beyond it is background. -/
def maxAbsCoord (m : Finset Pix) : ℕ :=
  m.sup (fun p => max p.1.natAbs p.2.natAbs)

/-- Modelled from the spec: the Euclidean distance transform of a mask
(the script delegates to the platform's image.distance, whose
implementation is not in the repository) — for a foreground pixel the
distance to the nearest background pixel, for a background pixel 0.
Values are the squared Euclidean distances; the square root is strictly
monotone, so every comparison the program makes between distance-field
values is unchanged. The search box always contains a background pixel
on the horizontal axis through p, and hence also every background pixel
at least as near as that one. -/
def distanceTransform (m : Finset Pix) (p : Pix) : ℕ :=
  let cand := ((pixBox p (2 * maxAbsCoord m + 1)).filter (fun q => q ∉ m)).image
    (fun q => (sqDistPix p q).toNat)
  if p ∈ m then (if h : cand.Nonempty then cand.min' h else 0) else 0

/-- Modelled from the spec: focal_max — the maximum of the distance
field over the square window of the given size centred on the pixel.
The window always contains the pixel itself. -/
def localMax (d : Pix → ℕ) (size : ℕ) (p : Pix) : ℕ :=
  (pixBox p (size / 2)).sup d

/-- The raster part of extractCenterline (script lines 38-47): opening
by erosion then dilation, distance transform of the opened mask, and
the medial-axis rule distance.gt(distance.focal_max(size)).selfMask() —
a pixel is kept iff its distance value is strictly greater than the
focal maximum. A pixel outside the opened mask has distance value 0 and
can never satisfy the strict inequality, so restricting the candidates
to the opened mask loses nothing. The script's call site fixes the
radii to 2 and the window size to 5; they are kept general here. -/
def centerlinePixels (m : Finset Pix) (er dr size : ℕ) : Finset Pix :=
  let opened := dilate (erode m er) dr
  opened.filter (fun p =>
    localMax (distanceTransform opened) size p < distanceTransform opened p)

/-- The 8-neighbourhood of a pixel. -/
def neighbors8 (p : Pix) : List Pix :=
  [(p.1 - 1, p.2 - 1), (p.1 - 1, p.2), (p.1 - 1, p.2 + 1),
   (p.1, p.2 - 1), (p.1, p.2 + 1),
   (p.1 + 1, p.2 - 1), (p.1 + 1, p.2), (p.1 + 1, p.2 + 1)]

/-- One step of connected-component growth inside a skeleton: the
skeleton pixels already in the set or 8-adjacent to it. -/
def expandStep (sk s : Finset Pix) : Finset Pix :=
  sk.filter (fun q => q ∈ s ∨ ∃ r ∈ s, q ∈ neighbors8 r)

/-- Iterated growth. -/
def reachN : ℕ → Finset Pix → Finset Pix → Finset Pix
  | 0, _, s => s
  | n + 1, sk, s => reachN n sk (expandStep sk s)

/-- The 8-connected component of p inside sk (sk.card growth steps
always suffice). -/
def component (sk : Finset Pix) (p : Pix) : Finset Pix :=
  reachN sk.card sk (insert p ∅)

/-- Lexicographic order on pixels. -/
def pixLE (p q : Pix) : Prop :=
  p.1 < q.1 ∨ (p.1 = q.1 ∧ p.2 ≤ q.2)

instance : DecidableRel pixLE := fun p q => by
  unfold pixLE; exact inferInstance

instance : IsTrans Pix pixLE := by
  constructor; intro a b c hab hbc; unfold pixLE at *; omega

instance : IsAntisymm Pix pixLE := by
  constructor; intro a b hab hba; unfold pixLE at *
  have h1 : a.1 = b.1 ∧ a.2 = b.2 := by omega
  exact Prod.ext h1.1 h1.2

instance : IsTotal Pix pixLE := by
  constructor; intro a b; unfold pixLE; omega

/-- The lexicographically least pixel of each component, one per
component. -/
def compReps (sk : Finset Pix) : Finset Pix :=
  sk.filter (fun p => ∀ q ∈ component sk p, pixLE p q)

/-- Squared perpendicular deviation of p from the segment a-b (from the
point a itself when the segment is degenerate). -/
def perpDevSq (a b p : ℚ × ℚ) : ℚ :=
  let dx := b.1 - a.1
  let dy := b.2 - a.2
  if dx = 0 ∧ dy = 0 then (p.1 - a.1) ^ 2 + (p.2 - a.2) ^ 2
  else (dx * (p.2 - a.2) - dy * (p.1 - a.1)) ^ 2 / (dx ^ 2 + dy ^ 2)

/-- Index (within the interior point list) and value of the farthest
point from the segment a-b. -/
def maxDevIdx (a b : ℚ × ℚ) (mid : List (ℚ × ℚ)) : ℕ × ℚ :=
  (mid.mapIdx (fun i p => (i, perpDevSq a b p))).foldl
    (fun best cur => if best.2 < cur.2 then cur else best) (0, 0)

/-- Douglas-Peucker recursion with fuel: keep the endpoints, recurse on
the two halves around the farthest interior point when its squared
deviation exceeds the squared tolerance. -/
def dpRec : ℕ → ℚ → List (ℚ × ℚ) → List (ℚ × ℚ)
  | 0, _, pts => pts
  | fuel + 1, tolSq, pts =>
    match pts with
    | [] => []
    | [p] => [p]
    | a :: rest =>
      let b := rest.getLastD a
      let mid := rest.dropLast
      let im := maxDevIdx a b mid
      if im.2 ≤ tolSq then [a, b]
      else
        (dpRec fuel tolSq (a :: mid.take (im.1 + 1))).dropLast ++
          dpRec fuel tolSq (mid.drop im.1 ++ [b])

/-- Douglas-Peucker simplification with the given tolerance; deviations
are compared squared against the squared tolerance, which is equivalent
for a non-negative tolerance. -/
def douglasPeucker (tol : ℚ) (pts : List (ℚ × ℚ)) : List (ℚ × ℚ) :=
  dpRec pts.length (tol ^ 2) pts

/-- Modelled from the spec: SkeletonVectorizer (the script delegates to
the platform's reduceToVectors and simplify, whose implementations are
not in the repository) — group the skeleton pixels into 8-connected
components, drop components of fewer than 3 pixels as noise, order each
component's pixels (lexicographically here; the traversal order is an
implementation choice in the spec), emit pixel-centre coordinates, and
simplify each polyline with Douglas-Peucker at the given tolerance. -/
def vectorize (sk : Finset Pix) (tol : ℚ) : List (List (ℚ × ℚ)) :=
  let reps := (compReps sk).sort pixLE
  ((reps.map (fun p => component sk p)).filter (fun c => 3 ≤ c.card)).map
    (fun c => douglasPeucker tol
      ((c.sort pixLE).map (fun q => ((q.1 : ℚ), (q.2 : ℚ)))))

/-- extractCenterline from the script (lines 38-57): the raster medial
axis followed by vectorization and simplification, at the script's
parameters (erosion and dilation radius 2, focal window size 5,
simplification maxError 10). -/
def extractCenterline (m : Finset Pix) : List (List (ℚ × ℚ)) :=
  vectorize (centerlinePixels m 2 2 5) 10

/-- A degenerate one-point LineString at (1,2), used identically as
earlier and later input. -/
def selfLine : Feature := lineFeature [(1, 2)]

/-- A one-point LineString at the origin. -/
def singleA : Feature := lineFeature [(0, 0)]

/-- A one-point LineString at (3,4), Euclidean distance 5 from the
origin. -/
def singleB : Feature := lineFeature [(3, 4)]

/-- A mask holding a single foreground pixel at the origin. -/
def oneDotMask : Finset Pix := {(0, 0)}

/-! ## Helper lemmas -/

theorem jsIndex_num (x : JSNum) (i : ℕ) :
    jsIndex (JSVal.num x) i = JSVal.undef := rfl

theorem flattenList_append (l₁ l₂ : List JSVal) :
    flattenList (l₁ ++ l₂) = flattenList l₁ ++ flattenList l₂ := by
  induction l₁ with
  | nil => simp [flattenList]
  | cons v rest ih =>
    cases v with
    | undef => simp [flattenList, ih]
    | num x => simp [flattenList, ih]
    | arr l => simp [flattenList, ih]

theorem flattenList_pairs (pts : List (ℚ × ℚ)) :
    flattenList (pts.map pairArr) =
      pts.flatMap (fun p => [JSVal.num (JSNum.fin p.1), JSVal.num (JSNum.fin p.2)]) := by
  induction pts with
  | nil => simp [flattenList]
  | cons p rest ih => simp [pairArr, flattenList, ih]

theorem flattenList_multi (lss : List (List (ℚ × ℚ))) :
    flattenList (lss.map lineCoords) =
      (lss.flatMap id).flatMap
        (fun p => [JSVal.num (JSNum.fin p.1), JSVal.num (JSNum.fin p.2)]) := by
  induction lss with
  | nil => simp [flattenList]
  | cons l rest ih =>
    simp [lineCoords, flattenList, flattenList_append, flattenList_pairs, ih]

theorem flatMap_pairs_index (pts : List (ℚ × ℚ)) :
    (pts.flatMap (fun p => [JSVal.num (JSNum.fin p.1), JSVal.num (JSNum.fin p.2)])).map
        (fun v => (jsIndex v 0, jsIndex v 1)) =
      List.replicate (2 * pts.length) (JSVal.undef, JSVal.undef) := by
  induction pts with
  | nil => rfl
  | cons p rest ih =>
    simp only [List.flatMap_cons, List.map_append, List.map_cons, List.map_nil,
      ih]
    rfl

theorem self_mem_pixBox (p : Pix) (r : ℕ) : p ∈ pixBox p r := by
  simp only [pixBox, Finset.mem_Icc, Prod.le_def]
  omega

theorem distanceTransform_le_localMax (m : Finset Pix) (size : ℕ) (p : Pix) :
    distanceTransform m p ≤ localMax (distanceTransform m) size p :=
  Finset.le_sup (self_mem_pixBox p (size / 2))

theorem getD_eq_getElem_of_lt {α : Type _} (l : List α) (d : α) (i : ℕ)
    (h : i < l.length) : l.getD i d = l[i] := by
  rw [List.getD_eq_getElem?_getD, List.getElem?_eq_getElem h, Option.getD_some]

theorem flatten_earlier : flattenCoords (lineCoords [(0, 0), (10, 0)]) =
    [JSVal.num (JSNum.fin 0), JSVal.num (JSNum.fin 0),
     JSVal.num (JSNum.fin 10), JSVal.num (JSNum.fin 0)] := by
  simp [flattenCoords, lineCoords, pairArr, flattenList]

theorem flatten_later : flattenCoords (lineCoords [(0, 5), (10, 5)]) =
    [JSVal.num (JSNum.fin 0), JSVal.num (JSNum.fin 5),
     JSVal.num (JSNum.fin 10), JSVal.num (JSNum.fin 5)] := by
  simp [flattenCoords, lineCoords, pairArr, flattenList]

theorem flatten_empty : flattenCoords (lineCoords []) = [] := by
  simp [flattenCoords, lineCoords, flattenList]

theorem flatten_self : flattenCoords (lineCoords [(1, 2)]) =
    [JSVal.num (JSNum.fin 1), JSVal.num (JSNum.fin 2)] := by
  simp [flattenCoords, lineCoords, pairArr, flattenList]

theorem flatten_singleA : flattenCoords (lineCoords [(0, 0)]) =
    [JSVal.num (JSNum.fin 0), JSVal.num (JSNum.fin 0)] := by
  simp [flattenCoords, lineCoords, pairArr, flattenList]

theorem flatten_singleB : flattenCoords (lineCoords [(3, 4)]) =
    [JSVal.num (JSNum.fin 3), JSVal.num (JSNum.fin 4)] := by
  simp [flattenCoords, lineCoords, pairArr, flattenList]

theorem numDiv_inf_fin (b : ℚ) (h : ¬ b < 0) :
    numDiv JSNum.inf (JSNum.fin b) = JSNum.inf := by
  simp [numDiv, h]

theorem mapIdx_eq_range_map {α β : Type _} (f : ℕ → α → β) (l : List α) (d : α) :
    l.mapIdx f = (List.range l.length).map (fun i => f i (l.getD i d)) := by
  apply List.ext_getElem
  · simp [List.length_mapIdx]
  · intro n h1 h2
    have hn : n < l.length := by rwa [List.length_mapIdx] at h1
    rw [List.getElem_map, List.getElem_range, getD_eq_getElem_of_lt _ _ _ hn]
    have hgm := List.get_mapIdx l f n hn
    simp only [List.get_eq_getElem] at hgm
    exact hgm

theorem getD_map_fst (epochs : List (ℤ × Feature)) (j : ℕ) (hj : j < epochs.length) :
    (epochs.map Prod.fst).getD j 0 = (epochs.getD j defaultEpoch).1 := by
  rw [getD_eq_getElem_of_lt _ _ _ (by simpa using hj),
    getD_eq_getElem_of_lt _ _ _ hj, List.getElem_map]

theorem getD_map_snd (epochs : List (ℤ × Feature)) (j : ℕ) (hj : j < epochs.length) :
    (epochs.map Prod.snd).getD j defaultFeature = (epochs.getD j defaultEpoch).2 := by
  rw [getD_eq_getElem_of_lt _ _ _ (by simpa using hj),
    getD_eq_getElem_of_lt _ _ _ hj, List.getElem_map]

theorem dropLast_map_fst_getD (epochs : List (ℤ × Feature)) (i : ℕ)
    (hi : i < epochs.length - 1) :
    (epochs.map Prod.fst).dropLast.getD i 0 = (epochs.getD i defaultEpoch).1 := by
  have h1 : i < epochs.length := by omega
  have h2 : i < (epochs.map Prod.fst).dropLast.length := by simp; omega
  rw [getD_eq_getElem_of_lt _ _ _ h2, List.getElem_dropLast, List.getElem_map,
    getD_eq_getElem_of_lt _ _ _ h1]

theorem migrationRatesOf_getD (sq : ℚ → JSNum) (epochs : List (ℤ × Feature))
    (t : ℚ) (i : ℕ) (hi : i < epochs.length - 1) :
    (migrationRatesOf sq (epochs.map Prod.snd) t).getD i JSNum.nan =
      calculateMigrationRate sq (epochs.getD i defaultEpoch).2
        (epochs.getD (i + 1) defaultEpoch).2 t := by
  have hlen : i < (migrationRatesOf sq (epochs.map Prod.snd) t).length := by
    simp [migrationRatesOf]; omega
  rw [getD_eq_getElem_of_lt _ _ _ hlen]
  simp only [migrationRatesOf, List.getElem_map, List.getElem_range]
  rw [getD_map_snd _ _ (by omega), getD_map_snd _ _ (by omega)]

/-! ## Claim theorems -/

/-- C1: the claim expects the scenario earlier = [(0,0),(10,0)],
later = [(0,5),(10,5)], time interval 5 to produce rate exactly 1.0
(mean nearest-neighbour distance 5 divided by 5). The script instead
returns NaN, for every behaviour of Math.sqrt on finite arguments:
flattenCoords reduces both coordinate lists to bare scalar numbers,
indexing a scalar yields undefined, and the arithmetic on undefined is
NaN throughout, so every recorded minimum distance, their average, and
the final rate are NaN. -/
theorem c1_scenario_rate_is_nan (sq : ℚ → JSNum) :
    calculateMigrationRate sq earlierLine laterLine 5 = JSNum.nan := by
  simp only [calculateMigrationRate, earlierLine, laterLine, lineFeature]
  rw [flatten_earlier, flatten_later]
  rfl

/-- C2 counterexample: for a Point geometry (not line-like) the
estimator does not reject — it returns exactly the zero rate the claim
says it must never return. -/
theorem c2_point_geometry_returns_zero :
    calculateMigrationRate sqNaN pointFeature laterLine 5 = JSNum.fin 0 := rfl

/-- C2 (amended): when either geometry is not line-like, the estimator
logs a message and returns rate 0; it does not reject and has no error
channel. -/
theorem c2_nonline_logs_and_returns_zero (sq : ℚ → JSNum) (c1 c2 : Feature)
    (t : ℚ)
    (h : (!isLineLike c1.geometry.type || !isLineLike c2.geometry.type) = true) :
    calculateMigrationRate sq c1 c2 t = JSNum.fin 0 := by
  simp [calculateMigrationRate, h]

theorem c2_nonline_logs_and_returns_zero_witness :
    calculateMigrationRate sqNaN pointFeature earlierLine 5 = JSNum.fin 0 :=
  c2_nonline_logs_and_returns_zero sqNaN pointFeature earlierLine 5 (by decide)

/-- C3 counterexample: with time interval 0 the estimator does not
reject — it returns the JavaScript number NaN (a value, not an error). -/
theorem c3_zero_interval_returns_number :
    calculateMigrationRate sqNaN earlierLine laterLine 0 = JSNum.nan := by
  simp only [calculateMigrationRate, earlierLine, laterLine, lineFeature]
  rw [flatten_earlier, flatten_later]
  rfl

/-- C3 (amended): the estimator never validates the time interval; for
every t ≤ 0 it still returns a JavaScript number — NaN at the scenario
input — via plain division, with no guard anywhere. -/
theorem c3_no_interval_validation (sq : ℚ → JSNum) (t : ℚ) (_h : t ≤ 0) :
    calculateMigrationRate sq earlierLine laterLine t = JSNum.nan := by
  simp only [calculateMigrationRate, earlierLine, laterLine, lineFeature]
  rw [flatten_earlier, flatten_later]
  rfl

theorem c3_no_interval_validation_witness :
    (-1 : ℚ) ≤ 0 ∧
      calculateMigrationRate sqNaN earlierLine laterLine (-1) = JSNum.nan :=
  ⟨by norm_num, c3_no_interval_validation sqNaN (-1) (by norm_num)⟩

/-- C5 counterexample: with the earlier polyline set empty the
estimator returns NaN (the average is 0/0), not the claimed rate 0, and
no degenerate flag exists anywhere in the function's number-valued
interface. -/
theorem c5_empty_earlier_not_zero :
    calculateMigrationRate sqNaN emptyLine laterLine 5 = JSNum.nan ∧
      JSNum.nan ≠ JSNum.fin 0 := by
  constructor
  · simp only [calculateMigrationRate, emptyLine, laterLine, lineFeature]
    rw [flatten_empty, flatten_later]
    rfl
  · decide

/-- C5 (amended): the estimator neither flags nor zeroes degenerate
inputs: with the earlier set empty it returns NaN (0/0 average), and
with the earlier set non-empty and the later set empty every recorded
minimum stays Infinity and the returned rate is Infinity, for every
positive time interval. -/
theorem c5_empty_set_nan_or_inf (sq : ℚ → JSNum) (t : ℚ) (h : 0 < t) :
    calculateMigrationRate sq emptyLine laterLine t = JSNum.nan ∧
      calculateMigrationRate sq earlierLine emptyLine t = JSNum.inf := by
  constructor
  · simp only [calculateMigrationRate, emptyLine, laterLine, lineFeature]
    rw [flatten_empty, flatten_later]
    rfl
  · simp only [calculateMigrationRate, emptyLine, earlierLine, lineFeature]
    rw [flatten_empty, flatten_earlier]
    show numDiv JSNum.inf (JSNum.fin t) = JSNum.inf
    exact numDiv_inf_fin t (not_lt.mpr h.le)

theorem c5_empty_set_nan_or_inf_witness :
    (0 : ℚ) < 5 ∧
      (calculateMigrationRate sqNaN emptyLine laterLine 5 = JSNum.nan ∧
        calculateMigrationRate sqNaN earlierLine emptyLine 5 = JSNum.inf) :=
  ⟨by norm_num, c5_empty_set_nan_or_inf sqNaN 5 (by norm_num)⟩

/-- C6: the claim expects estimate(P, P, t) = 0 for a non-empty P. At
P = [(1,2)], t = 3 the script instead returns NaN, for every behaviour
of Math.sqrt: the flattened scalar coordinates make every distance NaN,
including each point's distance to itself. -/
theorem c6_identical_inputs_rate_is_nan (sq : ℚ → JSNum) :
    calculateMigrationRate sq selfLine selfLine 3 = JSNum.nan := by
  simp only [calculateMigrationRate, selfLine, lineFeature]
  rw [flatten_self]
  rfl

/-- C9: the claim expects a non-negative, non-NaN, finite rate whenever
the preconditions hold. At the precondition-satisfying input
earlier = [(0,0)], later = [(3,4)], t = 1 (both line-like and
non-empty, positive interval) the script returns NaN instead of the
intended rate 5. -/
theorem c9_valid_inputs_rate_is_nan (sq : ℚ → JSNum) :
    calculateMigrationRate sq singleA singleB 1 = JSNum.nan := by
  simp only [calculateMigrationRate, singleA, singleB, lineFeature]
  rw [flatten_singleA, flatten_singleB]
  rfl

/-- C4: the claim says a foreground pixel of the opened mask whose
distance value ties the focal maximum of its window is marked as
skeleton. The script compares strictly (distance GREATER THAN focal
maximum), and the window contains the pixel itself, so no pixel — tie
or otherwise — is ever marked: the skeleton raster is empty for every
mask and every parameter choice, even though, whenever the opened mask
is non-empty, some pixel of it (any pixel of maximal distance value)
ties with its own local maximum. The claim's second half — no pixel
outside the mask is ever skeleton — holds vacuously. -/
theorem c4_ties_never_marked (m : Finset Pix) (er dr size : ℕ)
    (h : (dilate (erode m er) dr).Nonempty) :
    centerlinePixels m er dr size = ∅ ∧
      ∃ p ∈ dilate (erode m er) dr,
        distanceTransform (dilate (erode m er) dr) p =
          localMax (distanceTransform (dilate (erode m er) dr)) size p := by
  constructor
  · rw [centerlinePixels, Finset.filter_eq_empty_iff]
    intro p _
    exact not_lt.mpr (distanceTransform_le_localMax _ size p)
  · obtain ⟨b, hb, hmax⟩ := Finset.exists_max_image (dilate (erode m er) dr)
      (distanceTransform (dilate (erode m er) dr)) h
    refine ⟨b, hb, le_antisymm (distanceTransform_le_localMax _ size b)
      (Finset.sup_le ?_)⟩
    intro q _
    by_cases hq2 : q ∈ dilate (erode m er) dr
    · exact hmax q hq2
    · simp [distanceTransform, hq2]

theorem c4_ties_never_marked_witness :
    (dilate (erode oneDotMask 0) 0).Nonempty ∧
      (centerlinePixels oneDotMask 0 0 5 = ∅ ∧
        ∃ p ∈ dilate (erode oneDotMask 0) 0,
          distanceTransform (dilate (erode oneDotMask 0) 0) p =
            localMax (distanceTransform (dilate (erode oneDotMask 0) 0)) 5 p) :=
  ⟨by decide, c4_ties_never_marked oneDotMask 0 0 5 (by decide)⟩

/-- C7: for every ordered epoch sequence the pipeline's pairing loop
produces exactly (number of epochs minus one) migration records, and
the table equals, entry by entry and in epoch order, the sequence whose
i-th record carries the labels of epoch i and epoch i+1 together with
the rate computed from their two centerlines. -/
theorem c7_pipeline_pairing (sq : ℚ → JSNum) (epochs : List (ℤ × Feature))
    (t : ℚ) :
    (mainMigrationTable sq epochs t).length = epochs.length - 1 ∧
      mainMigrationTable sq epochs t =
        (List.range (epochs.length - 1)).map (fun i =>
          ⟨(epochs.getD i defaultEpoch).1, (epochs.getD (i + 1) defaultEpoch).1,
            calculateMigrationRate sq (epochs.getD i defaultEpoch).2
              (epochs.getD (i + 1) defaultEpoch).2 t⟩) := by
  constructor
  · simp [mainMigrationTable, migrationRateData, List.length_mapIdx]
  · rw [mainMigrationTable, migrationRateData, mapIdx_eq_range_map _ _ 0,
      show (epochs.map Prod.fst).dropLast.length = epochs.length - 1 by simp]
    apply List.map_congr_left
    intro i hi
    have hi' : i < epochs.length - 1 := List.mem_range.mp hi
    simp only [MigrationRecord.mk.injEq]
    exact ⟨dropLast_map_fst_getD epochs i hi',
      getD_map_fst epochs (i + 1) (by omega),
      migrationRatesOf_getD sq epochs t i hi'⟩

/-- C8: for a mask with no foreground pixels the skeletonizer produces
an empty skeleton raster and the vectorizer produces an empty polyline
set; both are total functions, so neither can signal an error. -/
theorem c8_empty_mask_empty_outputs (er dr size : ℕ) (tol : ℚ) :
    centerlinePixels ∅ er dr size = ∅ ∧ vectorize ∅ tol = [] := by
  constructor
  · simp [centerlinePixels, erode, dilate]
  · simp [vectorize, compReps]

/-- C10: flattenCoords returns the scalar numeric leaves in depth-first
left-to-right order: a LineString coordinate list of n two-element
points flattens to the 2n scalar numbers rather than n coordinate
pairs (and a MultiLineString flattens to the concatenation of its
parts' leaves), so the nearest-neighbour loop that follows indexes into
scalar numbers, and point[0], point[1] are undefined for every element
of the flattened list. -/
theorem c10_flattenCoords_yields_scalars (pts : List (ℚ × ℚ))
    (lss : List (List (ℚ × ℚ))) :
    flattenCoords (lineCoords pts) =
        pts.flatMap (fun p => [JSVal.num (JSNum.fin p.1), JSVal.num (JSNum.fin p.2)]) ∧
      (flattenCoords (lineCoords pts)).length = 2 * pts.length ∧
      (flattenCoords (lineCoords pts)).map (fun v => (jsIndex v 0, jsIndex v 1)) =
        List.replicate (2 * pts.length) (JSVal.undef, JSVal.undef) ∧
      flattenCoords (multiLineCoords lss) =
        (lss.flatMap id).flatMap
          (fun p => [JSVal.num (JSNum.fin p.1), JSVal.num (JSNum.fin p.2)]) := by
  have h1 : flattenCoords (lineCoords pts) =
      pts.flatMap (fun p => [JSVal.num (JSNum.fin p.1), JSVal.num (JSNum.fin p.2)]) := by
    simp [flattenCoords, lineCoords, flattenList_pairs]
  have h2 : (flattenCoords (lineCoords pts)).map (fun v => (jsIndex v 0, jsIndex v 1)) =
      List.replicate (2 * pts.length) (JSVal.undef, JSVal.undef) := by
    rw [h1]; exact flatMap_pairs_index pts
  refine ⟨h1, ?_, h2, ?_⟩
  · have h3 := congrArg List.length h2
    simpa using h3
  · simp [flattenCoords, multiLineCoords, flattenList_multi]
